import Mathlib

/-!
Verification development for the libp2p-iroh transport adapter.

The definitions below are a shallow embedding of the Rust sources:
src/helper.rs (identity and address translation), src/connection.rs
(the StreamMuxer state machine of Connection), src/stream.rs (the
Stream wrapper), and src/transport.rs (the Transport facade).
External library behaviour (ed25519 point validation, QUIC stream
semantics) is abstracted by explicit parameters or predicates, noted
at each definition.
-/

namespace Libp2pIroh

/-! ## Identity and address translation (src/helper.rs) -/

/-- Byte strings, as lists of naturals. -/
abbrev Bytes := List Nat

/-- Multihash identity header that PeerId.to_bytes places before the 32
raw ed25519 key bytes: 0x00 0x24 (identity code, digest length 36),
then the protobuf public-key envelope 0x08 0x01 (key type ed25519) and
0x12 0x20 (data field, length 32). Hence an ed25519 PeerId is 38 bytes
and the raw key occupies bytes 6..38, matching the offset used by
peer_id_to_node_id in src/helper.rs. -/
def peerIdHeader : Bytes := [0, 36, 8, 1, 18, 32]

/-- Embeds node_id_to_peerid (src/helper.rs lines 108-115): the 32
public-key bytes of the EndpointId are fed to the external ed25519
PublicKey.try_from_bytes, which succeeds exactly when the input is 32
bytes long and is a valid compressed curve point; the validity check of
the external dalek library is abstracted as the parameter V (iroh
EndpointId.from_bytes performs the same check on the same bytes). On
success the PeerId is the identity multihash of the protobuf envelope,
i.e. peerIdHeader followed by the raw key. -/
def node_id_to_peerid (V : Bytes → Bool) (node_id : Bytes) : Option Bytes :=
  if node_id.length = 32 ∧ V node_id = true then some (peerIdHeader ++ node_id)
  else none

/-- Embeds peer_id_to_node_id (src/helper.rs lines 35-68): require the
PeerId encoding to be exactly 38 bytes, slice off the first 6 header
bytes, convert to a 32-byte array, and hand the result to
EndpointId.from_bytes whose curve-point validation is the same external
check V. Any mismatch yields None. -/
def peer_id_to_node_id (V : Bytes → Bool) (peer_id : Bytes) : Option Bytes :=
  if peer_id.length = 38 then
    if (peer_id.drop 6).length = 32 ∧ V (peer_id.drop 6) = true then
      some (peer_id.drop 6)
    else none
  else none

/-- Components of a Multiaddr that matter to this adapter: a P2p
component carrying PeerId bytes, or any other protocol component. -/
inductive MProto where
  | p2p (peer_id : Bytes)
  | other (tag : Nat)
deriving DecidableEq, Repr

/-- Multiaddr as its list of protocol components. -/
abbrev Multiaddr := List MProto

/-- Embeds multiaddr_to_iroh_node_id (src/helper.rs lines 4-33): scan
the components in order; for each P2p component try peer_id_to_node_id;
return the first success; if a P2p component fails to convert the loop
continues; return None when the scan ends without a success. -/
def multiaddr_to_iroh_node_id (V : Bytes → Bool) : Multiaddr → Option Bytes
  | [] => none
  | MProto.p2p pid :: rest =>
    match peer_id_to_node_id V pid with
    | some n => some n
    | none => multiaddr_to_iroh_node_id V rest
  | MProto.other _ :: rest => multiaddr_to_iroh_node_id V rest

/-- Embeds iroh_node_id_to_multiaddr (src/helper.rs lines 81-106):
start from the empty Multiaddr and push one P2p component built from
PublicKey.try_from_bytes on the EndpointId bytes followed by
PeerId.from_public_key (the same encoding as node_id_to_peerid). The
Rust code unwraps this conversion with .expect, so a failed conversion
is a panic; the panic case is modelled as None. -/
def iroh_node_id_to_multiaddr (V : Bytes → Bool) (node_id : Bytes) : Option Multiaddr :=
  match node_id_to_peerid V node_id with
  | some pid => some [MProto.p2p pid]
  | none => none

/-- Validity oracle that accepts every byte string, usable to
instantiate the external curve-point check in concrete witnesses. -/
def edAlways : Bytes → Bool := fun _ => true

/-- Concrete 32-byte key value for witnesses. -/
def key0 : Bytes := List.replicate 32 0

/-! ## Multiplexed connection (src/connection.rs) -/

/-- Outcome the executor observes when the cached accept/open future of
one direction is polled once: still pending, resolved with a substream
(the in-flight operation completed its accept/open and its one-byte
handshake, and Stream::new succeeded), or resolved with an error. -/
inductive OpOutcome where
  | pending
  | success
  | failure
deriving DecidableEq, Repr

/-- Result of one call to poll_inbound or poll_outbound. readyOk
carries the serial number of the underlying accept/open operation whose
substream is yielded. -/
inductive DirPoll where
  | pending
  | readyOk (op : Nat)
  | readyErr
deriving DecidableEq, Repr

/-- Per-direction state of the Connection muxer: the cached in-flight
future (the Option incoming / outgoing field of Connection in
src/connection.rs, identified here by the serial number of the
underlying accept_bi/open_bi operation it drives), the count of
underlying operations ever started (each created future performs
exactly one accept_bi or open_bi), and the count of one-byte handshakes
completed by operations that resolved successfully (the sentinel byte
is written, or read, inside the future before it resolves Ok). -/
structure DirState where
  inflight : Option Nat
  started : Nat
  hsResolved : Nat
deriving DecidableEq, Repr

/-- Embeds one call of the shared body of Connection.poll_inbound and
Connection.poll_outbound (src/connection.rs lines 84-117 and 119-155),
which are symmetric:
  - get_or_insert_with creates the future, and thereby starts the one
    underlying accept/open operation, only when no future is cached;
  - futures::ready! returns Pending without touching the cache;
  - on Ok, the handshake byte has been exchanged, the cache is cleared
    by .take(), and the substream is yielded;
  - on Err, the ? operator returns Ready(Err) before the .take() line
    runs, so the completed future stays cached. -/
def dirPoll (st : DirState) (out : OpOutcome) : DirState × DirPoll :=
  let st1 := match st.inflight with
    | some _ => st
    | none => { st with inflight := some st.started, started := st.started + 1 }
  let op := match st1.inflight with
    | some o => o
    | none => 0
  match out with
  | OpOutcome.pending => (st1, DirPoll.pending)
  | OpOutcome.success =>
    ({ st1 with inflight := none, hsResolved := st1.hsResolved + 1 }, DirPoll.readyOk op)
  | OpOutcome.failure => (st1, DirPoll.readyErr)

/-- State of one Connection muxer: one direction state for the inbound
(accept) side and one for the outbound (open) side. -/
structure Connection where
  incoming : DirState
  outgoing : DirState
deriving DecidableEq, Repr

/-- Embeds Connection.poll_inbound acting on the incoming direction. -/
def Connection.poll_inbound (c : Connection) (out : OpOutcome) : Connection × DirPoll :=
  let r := dirPoll c.incoming out
  ({ c with incoming := r.1 }, r.2)

/-- Embeds Connection.poll_outbound acting on the outgoing direction. -/
def Connection.poll_outbound (c : Connection) (out : OpOutcome) : Connection × DirPoll :=
  let r := dirPoll c.outgoing out
  ({ c with outgoing := r.1 }, r.2)

/-- Fresh Connection as built by Connection.new: no cached future in
either direction, no operation started, no handshake completed. -/
def conn0 : Connection :=
  { incoming := { inflight := none, started := 0, hsResolved := 0 },
    outgoing := { inflight := none, started := 0, hsResolved := 0 } }

/-! ## Handshake effects (src/connection.rs, src/stream.rs) -/

/-- Observable effect state of the send half used during an outbound
substream open: whether open_bi ran, the bytes written to the send half
in order, and how many of them an explicit flush has committed. -/
structure HsState where
  opened : Bool
  written : List Nat
  flushed : Nat
deriving DecidableEq, Repr

/-- Embeds the success path of the async block in
Connection.poll_outbound (src/connection.rs lines 128-146): open_bi,
then write_u8(0), then return Ok; no flush call appears. -/
def outboundHandshake (s : HsState) : HsState :=
  let s1 : HsState := { s with opened := true }
  { s1 with written := s1.written ++ [0] }

/-- Embeds the ConnectionShould.Open arm of Stream.new (src/stream.rs
lines 134-139): open_bi, write_u8(0), then flush, which commits every
byte written so far. -/
def streamNewOpenHandshake (s : HsState) : HsState :=
  let s1 : HsState := { s with opened := true }
  let s2 : HsState := { s1 with written := s1.written ++ [0] }
  { s2 with flushed := s2.written.length }

/-- Fresh send half before the handshake. -/
def hs0 : HsState := { opened := false, written := [], flushed := 0 }

/-! ## Stream close (src/stream.rs) -/

/-- State of one Stream wrapper: whether Connection.close has been
invoked on the whole underlying connection, whether the stream actor
has stopped, and whether SendStream.finish was ever called on the send
half (the Rust code never calls it). -/
structure StreamState where
  connClosed : Bool
  actorStopped : Bool
  sendFinished : Bool
deriving DecidableEq, Repr

/-- Result of an I/O operation as seen by the caller. -/
inductive IoResult where
  | ok
  | ioError
deriving DecidableEq, Repr

/-- Embeds Stream.poll_close (src/stream.rs lines 249-264): fetch the
connection from the stream actor (this call fails once the actor has
stopped, in which case the whole body is skipped), invoke
Connection.close on the entire underlying connection, mark the actor
stopped, and return Ready(Ok(())) unconditionally. The send half is
never finished. -/
def stream_poll_close (s : StreamState) : StreamState × IoResult :=
  if s.actorStopped then (s, IoResult.ok)
  else ({ s with connClosed := true, actorStopped := true }, IoResult.ok)

/-- Reading the receive half of a QUIC substream can still succeed only
while the owning connection is not closed: Connection.close tears down
every stream of the connection, so a receive half on a closed
connection is no longer usable. -/
def recvUsable (s : StreamState) : Bool := !s.connClosed

/-- Stream wrapper fresh from Stream.new: connection open, actor
running, send half not finished. -/
def stream0 : StreamState :=
  { connClosed := false, actorStopped := false, sendFinished := false }

/-! ## Transport listen, dial and poll (src/transport.rs) -/

/-- Events carried by the transport event queue. -/
inductive TEvent where
  | newAddress (listener_id : Nat)
  | incoming (listener_id : Nat)
deriving DecidableEq, Repr

/-- Result of Transport.listen_on. -/
inductive ListenResult where
  | ok
  | listenError
deriving DecidableEq, Repr

/-- Joint state of the ProtocolActor and the event queue as observed
through the serialized mailbox: the registered listener id, whether a
router is installed, and the queued transport events in order. -/
structure TransportState where
  listener_id : Option Nat
  hasRouter : Bool
  events : List TEvent
deriving DecidableEq, Repr

/-- Embeds Transport.listen_on (src/transport.rs lines 235-315): read
the actor's listener_id; if one is present return a Listen error at
once, before the router is built and before anything is sent to the
event queue; otherwise install a fresh router, record the listener id,
and push a NewAddress event for this listener. -/
def listen_on (s : TransportState) (id : Nat) : TransportState × ListenResult :=
  match s.listener_id with
  | some _ => (s, ListenResult.listenError)
  | none =>
    ({ listener_id := some id, hasRouter := true,
       events := s.events ++ [TEvent.newAddress id] }, ListenResult.ok)

/-- Embeds Transport.remove_listener (src/transport.rs lines 317-336):
clear the listener id and return true exactly when the supplied id
matches the registered one; otherwise leave the state unchanged and
return false. The router handle is not cleared. -/
def remove_listener (s : TransportState) (id : Nat) : TransportState × Bool :=
  match s.listener_id with
  | some cur =>
    if cur = id then ({ s with listener_id := none }, true) else (s, false)
  | none => (s, false)

/-- Transport with one registered listener and an empty event queue,
as left by a first successful listen_on after its event was drained. -/
def tstate0 : TransportState :=
  { listener_id := some 0, hasRouter := true, events := [] }

/-- Poll state of the future returned by endpoint.connect. -/
inductive ConnectPoll where
  | pending
  | connected (remote_node_id : Bytes)
  | failed
deriving DecidableEq, Repr

/-- Result of polling the future returned by Transport.dial. -/
inductive DialPoll where
  | pending
  | readyOk (peer_id : Bytes)
  | readyErr
deriving DecidableEq, Repr

/-- Embeds one poll of the boxed future returned by Transport.dial
(src/transport.rs lines 370-394). The future awaits endpoint.connect
directly, and on completion resolves the remote EndpointId to a PeerId
via node_id_to_peerid, mapping a conversion failure to a Dial error.
The elapsedMillis and timeoutMillis parameters are passed so that the
statements below can speak about the configured Transport timeout
field (src/transport.rs lines 22 and 170); the body ignores both,
because the code wraps the connect in no timer. -/
def dial_future_poll (V : Bytes → Bool) (elapsedMillis timeoutMillis : Nat)
    (c : ConnectPoll) : DialPoll :=
  match c with
  | ConnectPoll.pending => DialPoll.pending
  | ConnectPoll.failed => DialPoll.readyErr
  | ConnectPoll.connected remote =>
    match node_id_to_peerid V remote with
    | some pid => DialPoll.readyOk pid
    | none => DialPoll.readyErr

/-- Result of one poll_recv on the event channel receiver: an event is
ready, the channel is closed (every sender dropped and the queue
drained), or nothing is ready yet. -/
inductive RecvPoll where
  | readyEvent (e : TEvent)
  | readyClosed
  | pending
deriving DecidableEq, Repr

/-- Result of Transport.poll as handed to the host framework. -/
inductive TransportPoll where
  | ready (e : TEvent)
  | pending
deriving DecidableEq, Repr

/-- Embeds Transport.poll (src/transport.rs lines 397-408): map
Ready(Some(event)) to Ready(event), and map both Ready(None), the
closed channel, and Pending to Pending. -/
def transport_poll : RecvPoll → TransportPoll
  | RecvPoll.readyEvent e => TransportPoll.ready e
  | RecvPoll.readyClosed => TransportPoll.pending
  | RecvPoll.pending => TransportPoll.pending

/-! ## Theorems for the claims -/

/-- Claim C1: on a Connection with no in-flight operation in either
direction, a first poll of the outbound direction starts exactly one
underlying open and caches its future; a further poll while it is
pending observes the very same cached future and starts nothing new; a
poll that sees it resolve yields the substream of that same single
operation, with exactly one underlying open started and exactly one
handshake byte exchanged in total; the inbound direction behaves the
same way for accept. -/
theorem poll_single_inflight (c : Connection)
    (hin : c.incoming.inflight = none) (hout : c.outgoing.inflight = none) :
    (Connection.poll_outbound c OpOutcome.pending).2 = DirPoll.pending ∧
    (Connection.poll_outbound c OpOutcome.pending).1.outgoing.inflight
      = some c.outgoing.started ∧
    (Connection.poll_outbound c OpOutcome.pending).1.outgoing.started
      = c.outgoing.started + 1 ∧
    (Connection.poll_outbound
        (Connection.poll_outbound c OpOutcome.pending).1 OpOutcome.pending).1.outgoing
      = (Connection.poll_outbound c OpOutcome.pending).1.outgoing ∧
    (Connection.poll_outbound
        (Connection.poll_outbound c OpOutcome.pending).1 OpOutcome.success).2
      = DirPoll.readyOk c.outgoing.started ∧
    (Connection.poll_outbound
        (Connection.poll_outbound c OpOutcome.pending).1 OpOutcome.success).1.outgoing.started
      = c.outgoing.started + 1 ∧
    (Connection.poll_outbound
        (Connection.poll_outbound c OpOutcome.pending).1 OpOutcome.success).1.outgoing.hsResolved
      = c.outgoing.hsResolved + 1 ∧
    (Connection.poll_inbound
        (Connection.poll_inbound c OpOutcome.pending).1 OpOutcome.pending).1.incoming
      = (Connection.poll_inbound c OpOutcome.pending).1.incoming ∧
    (Connection.poll_inbound
        (Connection.poll_inbound c OpOutcome.pending).1 OpOutcome.pending).1.incoming.started
      = c.incoming.started + 1 := by
  rcases c with ⟨⟨i1, s1, h1⟩, ⟨i2, s2, h2⟩⟩
  simp only at hin hout
  subst hin hout
  simp [Connection.poll_outbound, Connection.poll_inbound, dirPoll]

/-- Witness for claim C1 at a fresh Connection: the second pending poll
of the outbound direction leaves the direction state, cached future
included, exactly as the first poll left it. -/
theorem poll_single_inflight_witness :
    (Connection.poll_outbound
        (Connection.poll_outbound conn0 OpOutcome.pending).1 OpOutcome.pending).1.outgoing
      = (Connection.poll_outbound conn0 OpOutcome.pending).1.outgoing :=
  (poll_single_inflight conn0 rfl rfl).2.2.2.1

/-- Claim C2 (code divergence): when the cached open future of a fresh
Connection resolves with an error, poll_outbound propagates the error
but the direction does not return to Idle: the completed future is
still cached, and a further poll starts no fresh open, in contradiction
with the specified return-to-Idle retry behaviour; the inbound
direction retains its completed accept future the same way. -/
theorem poll_error_keeps_cached_future :
    (Connection.poll_outbound conn0 OpOutcome.failure).2 = DirPoll.readyErr ∧
    (Connection.poll_outbound conn0 OpOutcome.failure).1.outgoing.inflight = some 0 ∧
    (Connection.poll_outbound
        (Connection.poll_outbound conn0 OpOutcome.failure).1 OpOutcome.pending).1.outgoing.started
      = 1 ∧
    (Connection.poll_inbound conn0 OpOutcome.failure).1.incoming.inflight = some 0 := by
  decide

/-- Claim C3, counterexample: running the poll_outbound handshake on a
fresh send half writes the single sentinel byte but flushes nothing, so
the substream is returned with the sentinel byte written yet never
flushed, refuting that the outbound open both writes and flushes the
sentinel before returning. -/
theorem poll_outbound_unflushed :
    (outboundHandshake hs0).written = [0] ∧ (outboundHandshake hs0).flushed = 0 := by
  decide

/-- Claim C3 as amended: the outbound open in Connection.poll_outbound
opens the channel and writes exactly one sentinel byte before the
substream is returned, but issues no flush; only the open path of
Stream.new in src/stream.rs both writes the sentinel byte and flushes
it. -/
theorem outbound_handshake_amended (s : HsState) :
    outboundHandshake s
      = { opened := true, written := s.written ++ [0], flushed := s.flushed } ∧
    streamNewOpenHandshake s
      = { opened := true, written := s.written ++ [0],
          flushed := s.written.length + 1 } := by
  constructor
  · rfl
  · simp [streamNewOpenHandshake]

/-- Claim C4: for every valid 32-byte ed25519 public key, converting
the NodeIdentifier to a PeerIdentifier with node_id_to_peerid and back
with peer_id_to_node_id returns the original key, and starting from the
PeerIdentifier so derived, peer_id_to_node_id followed by
node_id_to_peerid returns the original PeerIdentifier. -/
theorem peerid_nodeid_roundtrip (V : Bytes → Bool) (k : Bytes)
    (hlen : k.length = 32) (hV : V k = true) :
    (node_id_to_peerid V k).bind (peer_id_to_node_id V) = some k ∧
    node_id_to_peerid V k = some (peerIdHeader ++ k) ∧
    (peer_id_to_node_id V (peerIdHeader ++ k)).bind (node_id_to_peerid V)
      = some (peerIdHeader ++ k) := by
  have hdrop : (peerIdHeader ++ k).drop 6 = k := by
    simp [peerIdHeader]
  have hlen38 : (peerIdHeader ++ k).length = 38 := by
    simp [peerIdHeader, hlen]
  simp [node_id_to_peerid, peer_id_to_node_id, hlen, hV, hdrop, hlen38]

/-- Witness for claim C4 at the all-zero 32-byte key with the external
validity check instantiated to acceptance. -/
theorem peerid_nodeid_roundtrip_witness :
    (node_id_to_peerid edAlways key0).bind (peer_id_to_node_id edAlways) = some key0 :=
  (peerid_nodeid_roundtrip edAlways key0 (by decide) rfl).1

/-- Claim C5: for every valid 32-byte NodeIdentifier, the Multiaddr
produced by iroh_node_id_to_multiaddr is parsed back by
multiaddr_to_iroh_node_id to exactly the original NodeIdentifier. -/
theorem multiaddr_node_id_roundtrip (V : Bytes → Bool) (n : Bytes)
    (hlen : n.length = 32) (hV : V n = true) :
    (iroh_node_id_to_multiaddr V n).bind (multiaddr_to_iroh_node_id V) = some n := by
  have hdrop : (peerIdHeader ++ n).drop 6 = n := by
    simp [peerIdHeader]
  have hlen38 : (peerIdHeader ++ n).length = 38 := by
    simp [peerIdHeader, hlen]
  simp [iroh_node_id_to_multiaddr, node_id_to_peerid, multiaddr_to_iroh_node_id,
    peer_id_to_node_id, hlen, hV, hdrop, hlen38]

/-- Witness for claim C5 at the all-zero 32-byte key. -/
theorem multiaddr_node_id_roundtrip_witness :
    (iroh_node_id_to_multiaddr edAlways key0).bind (multiaddr_to_iroh_node_id edAlways)
      = some key0 :=
  multiaddr_node_id_roundtrip edAlways key0 (by decide) rfl

/-- Claim C9: iroh_node_id_to_multiaddr is total on NodeIdentifiers.
Every value of the EndpointId type carries exactly 32 bytes that the
external library validated at construction, which is the hypothesis
below; under it the conversion never reaches its panic branch and
returns the singleton P2p Multiaddr. -/
theorem iroh_node_id_to_multiaddr_total (V : Bytes → Bool) (n : Bytes)
    (hlen : n.length = 32) (hV : V n = true) :
    iroh_node_id_to_multiaddr V n = some [MProto.p2p (peerIdHeader ++ n)] := by
  simp [iroh_node_id_to_multiaddr, node_id_to_peerid, hlen, hV]

/-- Witness for claim C9 at the all-zero 32-byte key. -/
theorem iroh_node_id_to_multiaddr_total_witness :
    iroh_node_id_to_multiaddr edAlways key0
      = some [MProto.p2p (peerIdHeader ++ key0)] :=
  iroh_node_id_to_multiaddr_total edAlways key0 (by decide) rfl

/-- Claim C6: while a listener is registered, a second listen_on
returns a Listen error and leaves the whole state, the event queue
included, unchanged; remove_listener with the matching id returns true
and clears the listener; after that a further listen_on succeeds and
appends a fresh NewAddress event for the new listener id. -/
theorem listen_on_second_errors (s : TransportState) (id1 id2 id3 : Nat)
    (h : s.listener_id = some id1) :
    listen_on s id2 = (s, ListenResult.listenError) ∧
    (remove_listener s id1).2 = true ∧
    (remove_listener s id1).1.listener_id = none ∧
    (listen_on (remove_listener s id1).1 id3).2 = ListenResult.ok ∧
    (listen_on (remove_listener s id1).1 id3).1.events
      = s.events ++ [TEvent.newAddress id3] := by
  simp [listen_on, remove_listener, h]

/-- Witness for claim C6 at a Transport holding listener 0 with an
empty event queue: the second listen_on errors without touching the
queue and, after removal, listen_on 2 succeeds pushing NewAddress 2. -/
theorem listen_on_second_errors_witness :
    listen_on tstate0 1 = (tstate0, ListenResult.listenError) ∧
    (listen_on (remove_listener tstate0 0).1 2).1.events = [TEvent.newAddress 2] :=
  ⟨(listen_on_second_errors tstate0 0 1 2 rfl).1,
    (listen_on_second_errors tstate0 0 1 2 rfl).2.2.2.2⟩

/-- Claim C7 (code divergence): the future returned by Transport.dial
stays pending whenever the underlying endpoint.connect is pending,
whatever amount of time has elapsed and whatever the configured
timeout is; in particular it does not resolve to a Dial timeout error
once elapsedMillis exceeds timeoutMillis, because the code never arms
a timer around the connect. -/
theorem dial_future_poll_ignores_timeout (V : Bytes → Bool)
    (elapsedMillis timeoutMillis : Nat) :
    dial_future_poll V elapsedMillis timeoutMillis ConnectPoll.pending
      = DialPoll.pending := rfl

/-- Claim C8, counterexample: closing a fresh Stream reports success
but closes the entire underlying connection and never finishes the
send half, so the receive half is not left open and usable, refuting
the claimed half-close behaviour. -/
theorem poll_close_kills_connection :
    (stream_poll_close stream0).2 = IoResult.ok ∧
    (stream_poll_close stream0).1.sendFinished = false ∧
    recvUsable (stream_poll_close stream0).1 = false := by
  decide

/-- Claim C8 as amended: poll_close always reports success and is
idempotent, but it acts by closing the whole underlying connection and
stopping the stream actor when the actor still runs; it never finishes
the send half, and once it has run the receive half is no longer
usable. -/
theorem stream_poll_close_amended (s : StreamState) :
    stream_poll_close s
      = ({ connClosed := s.connClosed || !s.actorStopped, actorStopped := true,
           sendFinished := s.sendFinished }, IoResult.ok) ∧
    stream_poll_close (stream_poll_close s).1
      = ((stream_poll_close s).1, IoResult.ok) := by
  rcases s with ⟨c, a, f⟩
  cases a <;> simp [stream_poll_close]

/-- Claim C10: Transport.poll maps a closed event channel to Pending,
exactly as it maps an empty one, so channel closure is never surfaced
to the host framework as an error or a termination signal. -/
theorem transport_poll_closed_pending :
    transport_poll RecvPoll.readyClosed = TransportPoll.pending := rfl

end Libp2pIroh
